import Mathlib

/-!
Verification of the GeminiTask persistent store (src/database.py) and its
date helpers (src/utils.py) against the behavioural specification.

The SQLite-backed store is modelled as a pure value: each Python function
that opens a connection, runs SQL and commits becomes a Lean function from
a `Store` to a `Store` paired with its returned result.  SQL semantics that
matter here are embedded explicitly:

* `ORDER BY ... ASC` places NULL before every non-NULL value, and
  `... DESC` places NULL after every non-NULL value;
* TEXT values compare by byte order (BINARY collation), which for the
  ASCII strings stored by this program is exactly the lexicographic order
  on their character lists;
* a comparison (`=`, `<`, `BETWEEN`) whose operand is NULL is not true, so
  the row is filtered out;
* an `UPDATE ... WHERE id = ?` reports via `rowcount` the number of rows
  matched, whether or not the stored value changed;
* `INSERT` on a `UNIQUE` collision raises `IntegrityError`;
* `AUTOINCREMENT` hands out strictly increasing row ids, modelled by the
  `next...Id` counters.

Strings are compared and split through their underlying character lists so
that every definition evaluates inside the kernel.
-/

deriving instance DecidableEq for Except

namespace GeminiTask

/-- A row of the `contexts` or `projects` table: `id INTEGER PRIMARY KEY
AUTOINCREMENT, name TEXT UNIQUE NOT NULL` (src/database.py lines 36-49). -/
structure NamedRow where
  id : Nat
  name : String
deriving DecidableEq

/-- A row of the `tasks` table (src/database.py lines 52-65).  `priority` and
`due_date_time` are nullable TEXT, `context_id` and `project_id` nullable
integer references, `completed` defaults to false. -/
structure Task where
  id : Nat
  description : String
  priority : Option String
  due_date_time : Option String
  context_id : Option Nat
  project_id : Option Nat
  created_at : String
  completed : Bool
deriving DecidableEq

/-- The whole database file: the three tables plus the AUTOINCREMENT
counters (SQLite hands out strictly increasing ids per table). -/
structure Store where
  contexts : List NamedRow
  projects : List NamedRow
  tasks : List Task
  nextContextId : Nat
  nextProjectId : Nat
  nextTaskId : Nat
deriving DecidableEq

/-- The database right after `init_db`: empty tables. -/
def emptyStore : Store := ⟨[], [], [], 1, 1, 1⟩

/-- Python truthiness of an optional string argument: `if context_name:` is
taken when the argument is neither None nor the empty string. -/
def pyTruthy : Option String → Bool
  | none => false
  | some s => !s.data.isEmpty

/-- `get_context_by_name` (src/database.py lines 88-100): `SELECT * FROM
contexts WHERE name = ?` returning the first match or None. -/
def get_context_by_name (s : Store) (name : String) : Option NamedRow :=
  s.contexts.find? (fun c => decide (c.name = name))

/-- `add_context` (src/database.py lines 72-85): `INSERT INTO contexts
(name) VALUES (?)`; a UNIQUE collision raises IntegrityError, reported as
the error dict, and commits nothing. -/
def add_context (s : Store) (name : String) : Store × Except String NamedRow :=
  if s.contexts.any (fun c => decide (c.name = name)) then
    (s, Except.error ("Context '" ++ name ++ "' already exists"))
  else
    let row : NamedRow := ⟨s.nextContextId, name⟩
    (⟨s.contexts ++ [row], s.projects, s.tasks,
      s.nextContextId + 1, s.nextProjectId, s.nextTaskId⟩,
     Except.ok row)

/-- `get_project_by_name` (src/database.py lines 132-144). -/
def get_project_by_name (s : Store) (name : String) : Option NamedRow :=
  s.projects.find? (fun p => decide (p.name = name))

/-- `add_project` (src/database.py lines 116-129). -/
def add_project (s : Store) (name : String) : Store × Except String NamedRow :=
  if s.projects.any (fun p => decide (p.name = name)) then
    (s, Except.error ("Project '" ++ name ++ "' already exists"))
  else
    let row : NamedRow := ⟨s.nextProjectId, name⟩
    (⟨s.contexts, s.projects ++ [row], s.tasks,
      s.nextContextId, s.nextProjectId + 1, s.nextTaskId⟩,
     Except.ok row)

/-- `get_task` (src/database.py lines 280-301): `SELECT ... WHERE t.id = ?`. -/
def get_task (s : Store) (task_id : Nat) : Option Task :=
  s.tasks.find? (fun t => decide (t.id = task_id))

/-- The context-resolution step of `add_task` (src/database.py lines
165-174).  The source runs two separate store transactions — a lookup
(`get_context_by_name`, its own connection) and then an insert
(`add_context`, its own connection) — so the state each one reads is a
separate argument: `sLook` for the lookup, `sIns` for the insert.  In a
single-threaded run they are the same state.  When the insert fails
(`result["success"]` false) the source leaves `context_id = None` and
continues. -/
def add_task_resolveContext (sLook sIns : Store) (context_name : Option String) :
    Store × Option Nat :=
  if pyTruthy context_name then
    let nm := context_name.getD ""
    match get_context_by_name sLook nm with
    | some c => (sIns, some c.id)
    | none =>
      match add_context sIns nm with
      | (s1, Except.ok c) => (s1, some c.id)
      | (s1, Except.error _) => (s1, none)
  else (sIns, none)

/-- The project-resolution step of `add_task` (src/database.py lines
176-185), same shape as the context step. -/
def add_task_resolveProject (sLook sIns : Store) (project_name : Option String) :
    Store × Option Nat :=
  if pyTruthy project_name then
    let nm := project_name.getD ""
    match get_project_by_name sLook nm with
    | some p => (sIns, some p.id)
    | none =>
      match add_project sIns nm with
      | (s1, Except.ok p) => (s1, some p.id)
      | (s1, Except.error _) => (s1, none)
  else (sIns, none)

/-- `add_task` (src/database.py lines 160-217) with explicit interleaving
points: `interfereCtx` is the store update another writer commits between
the context lookup and the context auto-creation, and `interfereProj` the
one committed between the project lookup and the project auto-creation
(each of the four calls is its own SQLite transaction, per the source).
A race-free run passes the identity for both.  After resolving the names
the INSERT always succeeds (`description` is supplied, foreign keys are
not enforced by default), `created_at` is set by the store
(`CURRENT_TIMESTAMP`, passed in as `createdNow`), and the new row is
re-fetched by `lastrowid`. -/
def add_task_raced (s : Store) (interfereCtx interfereProj : Store → Store)
    (description : String)
    (priority due_date_time context_name project_name : Option String)
    (createdNow : String) : Store × Except String (Option Task) :=
  let r1 := add_task_resolveContext s (interfereCtx s) context_name
  let r2 := add_task_resolveProject r1.1 (interfereProj r1.1) project_name
  let t : Task := ⟨r2.1.nextTaskId, description, priority, due_date_time,
                   r1.2, r2.2, createdNow, false⟩
  let s3 : Store := ⟨r2.1.contexts, r2.1.projects, r2.1.tasks ++ [t],
                     r2.1.nextContextId, r2.1.nextProjectId, r2.1.nextTaskId + 1⟩
  (s3, Except.ok (get_task s3 t.id))

/-- `add_task` in a single-threaded run: all four store transactions read
the states produced in program order. -/
def add_task (s : Store) (description : String)
    (priority due_date_time context_name project_name : Option String)
    (createdNow : String) : Store × Except String (Option Task) :=
  add_task_raced s (fun st => st) (fun st => st) description priority
    due_date_time context_name project_name createdNow

/-- The per-row effect of `UPDATE tasks SET completed = 1 WHERE id = ?`. -/
def setDone (task_id : Nat) (t : Task) : Task :=
  if t.id = task_id then
    ⟨t.id, t.description, t.priority, t.due_date_time,
     t.context_id, t.project_id, t.created_at, true⟩
  else t

/-- `mark_task_done` (src/database.py lines 304-324): `UPDATE tasks SET
completed = 1 WHERE id = ?`, success iff `rowcount > 0` (SQLite counts a
matched row even when it already held `completed = 1`). -/
def mark_task_done (s : Store) (task_id : Nat) : Store × Except String Unit :=
  let s1 : Store := ⟨s.contexts, s.projects, s.tasks.map (setDone task_id),
    s.nextContextId, s.nextProjectId, s.nextTaskId⟩
  if s.tasks.any (fun t => decide (t.id = task_id)) then
    (s1, Except.ok ())
  else
    (s1, Except.error ("Task with ID " ++ toString task_id ++ " not found"))

/-- The keyword arguments of `edit_task`; None means "field not supplied". -/
structure EditArgs where
  description : Option String
  priority : Option String
  due_date_time : Option String
  context_name : Option String
  project_name : Option String
deriving DecidableEq

/-- The context branch of `edit_task` (src/database.py lines 353-370):
None leaves the stored value, the empty string clears it to NULL, a
non-empty unseen name is auto-created, and a failed auto-creation is
returned as the whole call's result (surfaced). -/
def edit_resolveContext (s : Store) (current : Task) (context_name : Option String) :
    Store × Except String (Option Nat) :=
  match context_name with
  | none => (s, Except.ok current.context_id)
  | some nm =>
    if !nm.data.isEmpty then
      match get_context_by_name s nm with
      | some c => (s, Except.ok (some c.id))
      | none =>
        match add_context s nm with
        | (s1, Except.ok c) => (s1, Except.ok (some c.id))
        | (s1, Except.error e) => (s1, Except.error e)
    else (s, Except.ok none)

/-- The project branch of `edit_task` (src/database.py lines 372-389). -/
def edit_resolveProject (s : Store) (current : Task) (project_name : Option String) :
    Store × Except String (Option Nat) :=
  match project_name with
  | none => (s, Except.ok current.project_id)
  | some nm =>
    if !nm.data.isEmpty then
      match get_project_by_name s nm with
      | some p => (s, Except.ok (some p.id))
      | none =>
        match add_project s nm with
        | (s1, Except.ok p) => (s1, Except.ok (some p.id))
        | (s1, Except.error e) => (s1, Except.error e)
    else (s, Except.ok none)

/-- `edit_task` (src/database.py lines 327-411).  Only supplied fields enter
the SET list; the update list is empty exactly when all five keyword
arguments are None ("No updates provided"); the UPDATE matches the row that
was just fetched, and the updated row is re-fetched for the result. -/
def edit_task (s : Store) (task_id : Nat) (a : EditArgs) :
    Store × Except String (Option Task) :=
  match get_task s task_id with
  | none => (s, Except.error ("Task with ID " ++ toString task_id ++ " not found"))
  | some current =>
    match edit_resolveContext s current a.context_name with
    | (s1, Except.error e) => (s1, Except.error e)
    | (s1, Except.ok context_id) =>
      match edit_resolveProject s1 current a.project_name with
      | (s2, Except.error e) => (s2, Except.error e)
      | (s2, Except.ok project_id) =>
        if a.description.isNone && a.priority.isNone && a.due_date_time.isNone &&
           a.context_name.isNone && a.project_name.isNone then
          (s2, Except.error "No updates provided")
        else
          let newTask : Task :=
            ⟨current.id,
             (match a.description with | some d => d | none => current.description),
             (match a.priority with | some p => some p | none => current.priority),
             (match a.due_date_time with | some d => some d | none => current.due_date_time),
             context_id, project_id, current.created_at, current.completed⟩
          let s3 : Store := ⟨s2.contexts, s2.projects,
            s2.tasks.map (fun t => if t.id = task_id then newTask else t),
            s2.nextContextId, s2.nextProjectId, s2.nextTaskId⟩
          if s2.tasks.any (fun t => decide (t.id = task_id)) then
            (s3, Except.ok (get_task s3 task_id))
          else
            (s3, Except.error ("Task with ID " ++ toString task_id ++ " not found"))

/-- The filter options of `list_tasks` (src/database.py lines 220-228). -/
structure ListFilter where
  all_tasks : Bool
  priority : Option String
  due_range : Option (String × String)
  context_name : Option String
  project_name : Option String
  overdue : Bool
  completed : Bool
deriving DecidableEq

/-- The default call `list_tasks()`. -/
def defaultFilter : ListFilter := ⟨false, none, none, none, none, false, false⟩

/-- The LEFT JOIN of a task's `context_id`/`project_id` against the named
table: NULL when the reference is NULL or dangling. -/
def joinedName (rows : List NamedRow) (oid : Option Nat) : Option String :=
  match oid with
  | none => none
  | some i => (rows.find? (fun r => decide (r.id = i))).map (fun r => r.name)

/-- One WHERE clause evaluation of the query built by `list_tasks`
(src/database.py lines 233-269).  Each Python `if` that appends a clause
becomes a conjunct guarded by the same condition; an SQL comparison whose
operand is NULL is not true. -/
def rowMatches (s : Store) (now : String) (f : ListFilter) (t : Task) : Bool :=
  (if !f.all_tasks && !f.completed then t.completed == false else true) &&
  (if f.completed then t.completed == true else true) &&
  (if pyTruthy f.priority then decide (t.priority = f.priority) else true) &&
  (match f.due_range with
   | some (a, b) =>
     match t.due_date_time with
     | some d => decide (a.data ≤ d.data) && decide (d.data ≤ b.data)
     | none => false
   | none => true) &&
  (if pyTruthy f.context_name then
     decide (joinedName s.contexts t.context_id = f.context_name) else true) &&
  (if pyTruthy f.project_name then
     decide (joinedName s.projects t.project_id = f.project_name) else true) &&
  (if f.overdue then
     (match t.due_date_time with
      | some d => decide (d.data < now.data)
      | none => false) && t.completed == false
   else true)

/-- The sort key of `ORDER BY t.due_date_time ASC, t.priority DESC, t.id
ASC` under SQLite semantics: ascending TEXT with NULL first is `WithBot`
over byte-ordered strings, descending TEXT with NULL last is its order
dual, and ties fall through lexicographically to the integer id. -/
def sqlTextKey (o : Option String) : WithBot (List Char) :=
  match o with
  | none => ⊥
  | some s => (s.data : WithBot (List Char))

/-- The composite ORDER BY key of `list_tasks` (src/database.py line 271). -/
def taskKey (t : Task) : WithBot (List Char) ×ₗ ((WithBot (List Char))ᵒᵈ ×ₗ Nat) :=
  toLex (sqlTextKey t.due_date_time,
         toLex (OrderDual.toDual (sqlTextKey t.priority), t.id))

/-- Row `t` sorts no later than row `u` under the ORDER BY of `list_tasks`. -/
def taskLE (t u : Task) : Prop := taskKey t ≤ taskKey u

instance : DecidableRel taskLE := fun t u =>
  inferInstanceAs (Decidable (taskKey t ≤ taskKey u))

instance : IsTotal Task taskLE := ⟨fun t u => le_total (taskKey t) (taskKey u)⟩

instance : IsTrans Task taskLE := ⟨fun _ _ _ h1 h2 => le_trans h1 h2⟩

/-- `list_tasks` (src/database.py lines 220-277): filter the joined rows by
the composed WHERE clauses, then sort by the ORDER BY key.  `now` is the
timestamp `datetime.now().strftime("%Y-%m-%d %H:%M:%S")` the overdue
clause compares against. -/
def list_tasks (s : Store) (now : String) (f : ListFilter) : List Task :=
  List.insertionSort taskLE (s.tasks.filter (rowMatches s now f))

/-- A Python `datetime.datetime` value at second precision. -/
structure DateTime where
  year : Nat
  month : Nat
  day : Nat
  hour : Nat
  minute : Nat
  second : Nat
deriving DecidableEq

/-- Zero-padded two-digit field, as strftime prints `%m %d %H %M %S %I`. -/
def pad2 (n : Nat) : String :=
  if n < 10 then "0" ++ toString n else toString n

/-- Zero-padded four-digit year, as strftime prints `%Y` here. -/
def pad4 (n : Nat) : String :=
  if n < 10 then "000" ++ toString n
  else if n < 100 then "00" ++ toString n
  else if n < 1000 then "0" ++ toString n
  else toString n

/-- `dt.strftime("%Y-%m-%d %H:%M:%S")`, the canonical stored format. -/
def formatDateTime (dt : DateTime) : String :=
  pad4 dt.year ++ "-" ++ pad2 dt.month ++ "-" ++ pad2 dt.day ++ " " ++
  pad2 dt.hour ++ ":" ++ pad2 dt.minute ++ ":" ++ pad2 dt.second

/-- The local deterministic branch of `extract_date_time` (src/utils.py
lines 41-47) applied to the datetime `parser.parse` produced: when the
parsed time-of-day is exactly 00:00:00 the hour, minute and second are
replaced by 23:59:59; the result is formatted `%Y-%m-%d %H:%M:%S`.  The
source inspects only the parsed value — it has no information about
whether the input text explicitly encoded that midnight. -/
def extract_date_time_local (dt : DateTime) : String :=
  if dt.hour = 0 ∧ dt.minute = 0 ∧ dt.second = 0 then
    formatDateTime ⟨dt.year, dt.month, dt.day, 23, 59, 59⟩
  else formatDateTime dt

/-- Split a character list at every occurrence of `c` (the pieces keep no
separator), used to model string splitting during parsing. -/
def splitOnChar (c : Char) : List Char → List (List Char)
  | [] => [[]]
  | x :: xs =>
    match splitOnChar c xs with
    | [] => [[x]]
    | h :: t => if x == c then [] :: h :: t else (x :: h) :: t

/-- Numeric value of a digit list (most significant first). -/
def digitsVal (l : List Char) : Nat :=
  l.foldl (fun a c => a * 10 + (c.toNat - 48)) 0

/-- A run of `minLen` to `maxLen` decimal digits, else no parse. -/
def parseNumField (l : List Char) (minLen maxLen : Nat) : Option Nat :=
  if decide (minLen ≤ l.length) && decide (l.length ≤ maxLen) &&
     l.all (fun c => c.isDigit) then
    some (digitsVal l)
  else none

/-- Gregorian leap year, as `datetime` validates day-of-month. -/
def isLeap (y : Nat) : Bool :=
  (y % 4 == 0 && y % 100 != 0) || y % 400 == 0

/-- Days in a month of the proleptic Gregorian calendar. -/
def daysInMonth (y m : Nat) : Nat :=
  if m = 2 then (if isLeap y then 29 else 28)
  else if m = 4 ∨ m = 6 ∨ m = 9 ∨ m = 11 then 30 else 31

/-- Models `datetime.datetime.strptime(date_str, "%Y-%m-%d %H:%M:%S")` on
canonically separated input: a four-digit year, one-or-two-digit numeric
fields, and the `datetime` range checks (year at least 1, month 1-12, day
within the month, hour to 23, minute and second to 59).  Any other input
raises ValueError, i.e. parses to none. -/
def strptimeYmdHms (s : String) : Option DateTime :=
  match splitOnChar ' ' s.data with
  | [dpart, tpart] =>
    match splitOnChar '-' dpart, splitOnChar ':' tpart with
    | [ys, ms, ds], [hs, mins, ss] =>
      match parseNumField ys 4 4, parseNumField ms 1 2, parseNumField ds 1 2,
            parseNumField hs 1 2, parseNumField mins 1 2, parseNumField ss 1 2 with
      | some y, some mo, some d, some h, some mi, some se =>
        if decide (1 ≤ y) && decide (y ≤ 9999) && decide (1 ≤ mo) &&
           decide (mo ≤ 12) && decide (1 ≤ d) && decide (d ≤ daysInMonth y mo) &&
           decide (h ≤ 23) && decide (mi ≤ 59) && decide (se ≤ 59) then
          some ⟨y, mo, d, h, mi, se⟩
        else none
      | _, _, _, _, _, _ => none
    | _, _ => none
  | _ => none

/-- Models the deterministic `dateutil.parser.parse` of `extract_date_time`
on ISO-like input — `YYYY-MM-DD`, `YYYY-MM-DD HH:MM` or `YYYY-MM-DD
HH:MM:SS` — the forms the specification's examples use.  dateutil fills an
absent time-of-day with the default midnight 00:00:00; the boolean reports
whether the input text itself encoded a time-of-day. -/
def parseIsoLike (s : String) : Option (DateTime × Bool) :=
  match splitOnChar ' ' s.data with
  | [dpart] =>
    match splitOnChar '-' dpart with
    | [ys, ms, ds] =>
      match parseNumField ys 4 4, parseNumField ms 1 2, parseNumField ds 1 2 with
      | some y, some mo, some d =>
        if decide (1 ≤ mo) && decide (mo ≤ 12) && decide (1 ≤ d) &&
           decide (d ≤ daysInMonth y mo) then
          some (⟨y, mo, d, 0, 0, 0⟩, false)
        else none
      | _, _, _ => none
    | _ => none
  | [dpart, tpart] =>
    match splitOnChar '-' dpart, splitOnChar ':' tpart with
    | [ys, ms, ds], [hs, mins] =>
      match parseNumField ys 4 4, parseNumField ms 1 2, parseNumField ds 1 2,
            parseNumField hs 1 2, parseNumField mins 1 2 with
      | some y, some mo, some d, some h, some mi =>
        if decide (1 ≤ mo) && decide (mo ≤ 12) && decide (1 ≤ d) &&
           decide (d ≤ daysInMonth y mo) && decide (h ≤ 23) && decide (mi ≤ 59) then
          some (⟨y, mo, d, h, mi, 0⟩, true)
        else none
      | _, _, _, _, _ => none
    | [ys, ms, ds], [hs, mins, ss] =>
      match parseNumField ys 4 4, parseNumField ms 1 2, parseNumField ds 1 2,
            parseNumField hs 1 2, parseNumField mins 1 2, parseNumField ss 1 2 with
      | some y, some mo, some d, some h, some mi, some se =>
        if decide (1 ≤ mo) && decide (mo ≤ 12) && decide (1 ≤ d) &&
           decide (d ≤ daysInMonth y mo) && decide (h ≤ 23) && decide (mi ≤ 59) &&
           decide (se ≤ 59) then
          some (⟨y, mo, d, h, mi, se⟩, true)
        else none
      | _, _, _, _, _, _ => none
    | _, _ => none
  | _ => none

/-- Day number of a date in the proleptic Gregorian calendar, counted from
0000-03-01, for years at least 1 (the Hinnant civil-days algorithm).  The
difference of two day numbers is Python's `dt.date() - now.date()` in
days. -/
def civilDays (dt : DateTime) : Nat :=
  let y := if dt.month ≤ 2 then dt.year - 1 else dt.year
  let era := y / 400
  let yoe := y % 400
  let mp := (dt.month + 9) % 12
  let doy := (153 * mp + 2) / 5 + (dt.day - 1)
  let doe := yoe * 365 + yoe / 4 - yoe / 100 + doy
  era * 146097 + doe

/-- `dt.strftime("%A")`: the full weekday name.  Day 0 of `civilDays`
(0000-03-01) is a Wednesday. -/
def weekdayName (dt : DateTime) : String :=
  (["Wednesday", "Thursday", "Friday", "Saturday",
    "Sunday", "Monday", "Tuesday"].getD (civilDays dt % 7) "")

/-- `dt.strftime("%b")`: the abbreviated month name. -/
def monthAbbrev (m : Nat) : String :=
  (["Jan", "Feb", "Mar", "Apr", "May", "Jun", "Jul", "Aug", "Sep", "Oct",
    "Nov", "Dec"].getD (m - 1) "")

/-- Python's `str.replace(" 0", " ")`: every non-overlapping occurrence of
a space followed by a zero drops the zero, scanning left to right. -/
def replaceSpaceZero : List Char → List Char
  | ' ' :: '0' :: rest => ' ' :: replaceSpaceZero rest
  | c :: rest => c :: replaceSpaceZero rest
  | [] => []

/-- `dt.strftime("%I:%M %p").lstrip("0")` (src/utils.py lines 196, 200,
204, 209): twelve-hour clock, zero-padded, AM/PM, leading zeros
stripped. -/
def hour12Str (dt : DateTime) : String :=
  let raw := pad2 ((dt.hour + 11) % 12 + 1) ++ ":" ++ pad2 dt.minute ++ " " ++
             (if dt.hour < 12 then "AM" else "PM")
  String.mk (raw.data.dropWhile (fun c => c == '0'))

/-- `dt.strftime("%b %d, %Y at %I:%M %p").lstrip("0").replace(" 0", " ")`
(src/utils.py line 216), the absolute fallback format.  strftime's `%Y`
prints the year unpadded here (every stored year is four digits). -/
def absoluteFormat (dt : DateTime) : String :=
  let raw := monthAbbrev dt.month ++ " " ++ pad2 dt.day ++ ", " ++
             toString dt.year ++ " at " ++ pad2 ((dt.hour + 11) % 12 + 1) ++ ":" ++
             pad2 dt.minute ++ " " ++ (if dt.hour < 12 then "AM" else "PM")
  String.mk (replaceSpaceZero (raw.data.dropWhile (fun c => c == '0')))

/-- `format_relative_date` (src/utils.py lines 173-219).  `now` is
`datetime.datetime.now()`; the day difference is by calendar date.  A
falsy argument (None or the empty string) renders "No due date" before any
parsing; a ValueError from strptime renders "Invalid date". -/
def format_relative_date (now : DateTime) (date_str : Option String) : String :=
  match date_str with
  | none => "No due date"
  | some s =>
    if s.data.isEmpty then "No due date"
    else
      match strptimeYmdHms s with
      | none => "Invalid date"
      | some dt =>
        let days_diff : Int := (civilDays dt : Int) - (civilDays now : Int)
        if days_diff = 0 then "Today at " ++ hour12Str dt
        else if days_diff = 1 then "Tomorrow at " ++ hour12Str dt
        else if days_diff = -1 then "Yesterday at " ++ hour12Str dt
        else if 1 < days_diff ∧ days_diff < 7 then
          weekdayName dt ++ " at " ++ hour12Str dt
        else if -7 < days_diff ∧ days_diff < 0 then
          toString days_diff.natAbs ++ " days ago"
        else absoluteFormat dt

/-- Appending a row to a table that held no match makes the new row the
lookup result. -/
theorem find?_append_of_none {α : Type} (p : α → Bool) (l : List α) (a : α)
    (h : l.find? p = none) (ha : p a = true) : (l ++ [a]).find? p = some a := by
  rw [List.find?_append, h]
  simp [List.find?_cons_of_pos, ha]

/-- Replacing every row that matches an id keeps the lookup landing on the
replacement, provided some row matched before. -/
theorem find?_replace (l : List Task) (task_id : Nat) (t0 nt : Task)
    (hfind : l.find? (fun t => decide (t.id = task_id)) = some t0)
    (hid : nt.id = task_id) :
    (l.map (fun t => if t.id = task_id then nt else t)).find?
      (fun t => decide (t.id = task_id)) = some nt := by
  induction l with
  | nil => simp at hfind
  | cons a as ih =>
    by_cases ha : a.id = task_id
    · simp [ha, hid]
    · rw [List.find?_cons_of_neg _ (by simpa using ha)] at hfind
      simpa [ha] using ih hfind

/-- The three stored tasks of the ordering example: (id 1, due 2024-02-01,
priority low), (id 2, due 2024-02-01, priority high), (id 3, due NULL,
priority high). -/
def exampleStore : Store :=
  ⟨[], [], [⟨1, "task one", some "low", some "2024-02-01", none, none, "", false⟩,
            ⟨2, "task two", some "high", some "2024-02-01", none, none, "", false⟩,
            ⟨3, "task three", some "high", none, none, none, "", false⟩], 1, 1, 4⟩

/-- C1 counterexample: on the specification's own example the rows come
back in the order 3, 1, 2, not 2, 1, 3 — SQLite sorts the NULL due date
first under ASC, and `priority DESC` compares the TEXT values "low" >
"high" bytewise. -/
theorem c1_order_counterexample :
    (list_tasks exampleStore "2024-03-01 00:00:00" defaultFilter).map (fun t => t.id) ≠
      [2, 1, 3] := by
  decide

/-- C1 (amended): every `list_tasks` result is the filtered rows sorted by
the ORDER BY key `due_date_time ASC, priority DESC, id ASC` under SQLite
comparison semantics — due dates ascending with NULL first, priority by
descending bytewise text order with NULL last, id ascending — and on the
example tasks that order is id 3, then 1, then 2. -/
theorem c1_order_amended :
    (∀ (s : Store) (now : String) (f : ListFilter),
        List.Sorted taskLE (list_tasks s now f) ∧
        (list_tasks s now f).Perm (s.tasks.filter (rowMatches s now f))) ∧
    (list_tasks exampleStore "2024-03-01 00:00:00" defaultFilter).map (fun t => t.id) =
      [3, 1, 2] :=
  ⟨fun _ now f => ⟨List.sorted_insertionSort taskLE _, List.perm_insertionSort taskLE _⟩,
   by decide⟩

/-- C2: the local parse branch of `extract_date_time` turns the explicitly
encoded midnight "2025-03-01 00:00" into "2025-03-01 23:59:59" — the
substitution looks only at the parsed value, so an explicit midnight is
not preserved — while the date-only and the 14:30 examples behave as the
specification states. -/
theorem c2_explicit_midnight_bug :
    parseIsoLike "2025-03-01 00:00" = some (⟨2025, 3, 1, 0, 0, 0⟩, true) ∧
    extract_date_time_local ⟨2025, 3, 1, 0, 0, 0⟩ = "2025-03-01 23:59:59" ∧
    "2025-03-01 23:59:59" ≠ "2025-03-01 00:00:00" ∧
    parseIsoLike "2025-03-01" = some (⟨2025, 3, 1, 0, 0, 0⟩, false) ∧
    parseIsoLike "2025-03-01 14:30" = some (⟨2025, 3, 1, 14, 30, 0⟩, true) ∧
    extract_date_time_local ⟨2025, 3, 1, 14, 30, 0⟩ = "2025-03-01 14:30:00" := by
  decide

/-- The store `mark_task_done` commits: the UPDATE is applied whether or
not any row matched (`rowcount` only decides the returned result). -/
theorem mark_task_done_fst (s : Store) (task_id : Nat) :
    (mark_task_done s task_id).1 =
      ⟨s.contexts, s.projects, s.tasks.map (setDone task_id),
       s.nextContextId, s.nextProjectId, s.nextTaskId⟩ := by
  unfold mark_task_done
  split <;> rfl

/-- With a matching row, `rowcount > 0` and the call reports success. -/
theorem mark_task_done_snd_ok (s : Store) (task_id : Nat)
    (h : s.tasks.any (fun t => decide (t.id = task_id)) = true) :
    (mark_task_done s task_id).2 = Except.ok () := by
  unfold mark_task_done
  rw [if_pos h]

/-- `setDone` never changes a row's id. -/
theorem setDone_id (task_id : Nat) (t : Task) : (setDone task_id t).id = t.id := by
  unfold setDone
  split <;> rfl

/-- Applying the completed-update twice is the same as once. -/
theorem setDone_idem (task_id : Nat) (t : Task) :
    setDone task_id (setDone task_id t) = setDone task_id t := by
  unfold setDone
  split <;> simp_all

/-- C5: `mark_task_done` fails with the not-found error exactly when no
stored task has the id, leaving the store unchanged; when some task has
the id — whether or not it was already completed — the call succeeds,
every row with that id ends completed, and repeating the call changes
nothing further (idempotent at the store layer). -/
theorem c5_mark_task_done (s : Store) (task_id : Nat) :
    ((∀ t ∈ s.tasks, t.id ≠ task_id) →
        mark_task_done s task_id =
          (s, Except.error ("Task with ID " ++ toString task_id ++ " not found"))) ∧
    ((∃ t ∈ s.tasks, t.id = task_id) →
        (mark_task_done s task_id).2 = Except.ok () ∧
        (∀ u ∈ (mark_task_done s task_id).1.tasks, u.id = task_id → u.completed = true) ∧
        (mark_task_done (mark_task_done s task_id).1 task_id).1 =
          (mark_task_done s task_id).1 ∧
        (mark_task_done (mark_task_done s task_id).1 task_id).2 = Except.ok ()) := by
  constructor
  · intro hnone
    have hany : s.tasks.any (fun t => decide (t.id = task_id)) = false := by
      rw [List.any_eq_false]
      intro t ht
      simpa using hnone t ht
    have hmap : s.tasks.map (setDone task_id) = s.tasks := by
      rw [List.map_congr_left (g := id), List.map_id]
      intro t ht
      simp [setDone, hnone t ht]
    simp [mark_task_done, hany, hmap]
  · intro hsome
    have hany : s.tasks.any (fun t => decide (t.id = task_id)) = true := by
      rw [List.any_eq_true]
      obtain ⟨t, ht, hid⟩ := hsome
      exact ⟨t, ht, by simpa using hid⟩
    have hts : (mark_task_done s task_id).1.tasks = s.tasks.map (setDone task_id) := by
      rw [mark_task_done_fst]
    have hany2 : (mark_task_done s task_id).1.tasks.any
        (fun t => decide (t.id = task_id)) = true := by
      rw [hts, List.any_map]
      rw [List.any_eq_true] at hany ⊢
      obtain ⟨t, ht, hid⟩ := hany
      exact ⟨t, ht, by simpa [Function.comp, setDone_id] using hid⟩
    refine ⟨mark_task_done_snd_ok s task_id hany, ?_, ?_,
      mark_task_done_snd_ok (mark_task_done s task_id).1 task_id hany2⟩
    · intro u hu hid
      rw [hts, List.mem_map] at hu
      obtain ⟨t, _, rfl⟩ := hu
      unfold setDone at hid ⊢
      by_cases h : t.id = task_id
      · simp [h]
      · rw [if_neg h] at hid
        exact absurd hid h
    · rw [mark_task_done_fst (mark_task_done s task_id).1 task_id]
      rw [mark_task_done_fst s task_id]
      have : (s.tasks.map (setDone task_id)).map (setDone task_id) =
          s.tasks.map (setDone task_id) := by
        rw [List.map_map]
        exact List.map_congr_left (fun t _ => by
          simp [Function.comp, setDone_idem])
      simp [this]

/-- C6: creating a context under a name the store does not hold succeeds;
the created row is found again by name; creating the same name a second
time fails with the already-exists error and leaves the whole store — the
first row included — unchanged. -/
theorem c6_create_context (s : Store) (name : String)
    (h : get_context_by_name s name = none) :
    ∃ c, (add_context s name).2 = Except.ok c ∧ c.name = name ∧
      get_context_by_name (add_context s name).1 name = some c ∧
      (add_context (add_context s name).1 name).2 =
        Except.error ("Context '" ++ name ++ "' already exists") ∧
      (add_context (add_context s name).1 name).1 = (add_context s name).1 := by
  have hany : s.contexts.any (fun c => decide (c.name = name)) = false := by
    rw [List.any_eq_false]
    intro c hc
    simpa using List.find?_eq_none.mp h c hc
  have hany2 : (s.contexts ++ [(⟨s.nextContextId, name⟩ : NamedRow)]).any
      (fun c => decide (c.name = name)) = true := by
    simp
  refine ⟨⟨s.nextContextId, name⟩, ?_, rfl, ?_, ?_, ?_⟩
  · simp [add_context, hany]
  · simp only [add_context, hany, Bool.false_eq_true, if_neg, get_context_by_name]
    exact find?_append_of_none _ _ _ h (by simp)
  · simp [add_context, hany, hany2]
  · simp [add_context, hany, hany2]

/-- A store holding a single, already-completed task with id 1. -/
def doneStore : Store :=
  ⟨[], [], [⟨1, "ship release", none, none, none, none, "2024-01-01 00:00:00", true⟩],
   1, 1, 2⟩

/-- C5 witness: marking the already-completed task 1 succeeds, and marking
the absent id 5 fails with the not-found error. -/
theorem c5_mark_task_done_witness :
    (mark_task_done doneStore 1).2 = Except.ok () ∧
    mark_task_done doneStore 5 =
      (doneStore, Except.error ("Task with ID " ++ toString 5 ++ " not found")) :=
  ⟨((c5_mark_task_done doneStore 1).2
      ⟨⟨1, "ship release", none, none, none, none, "2024-01-01 00:00:00", true⟩,
       by decide, rfl⟩).1,
   (c5_mark_task_done doneStore 5).1 (by decide)⟩

/-- C6 witness: creating the context "work" in the empty store. -/
theorem c6_create_context_witness :
    ∃ c, (add_context emptyStore "work").2 = Except.ok c ∧ c.name = "work" ∧
      get_context_by_name (add_context emptyStore "work").1 "work" = some c ∧
      (add_context (add_context emptyStore "work").1 "work").2 =
        Except.error ("Context '" ++ "work" ++ "' already exists") ∧
      (add_context (add_context emptyStore "work").1 "work").1 =
        (add_context emptyStore "work").1 :=
  c6_create_context emptyStore "work" (by decide)

/-- C7: with the overdue flag set, a task is listed exactly when it is
listed by the same call with the overdue flag cleared AND its due date is
non-NULL and bytewise before the query-time `now` (chronological order for
the canonical zero-padded format) AND it is not completed — the overdue
restriction is conjoined with every other active filter. -/
theorem c7_overdue_filter (s : Store) (now : String) (f : ListFilter) (t : Task)
    (hov : f.overdue = true) :
    t ∈ list_tasks s now f ↔
      (t ∈ list_tasks s now
          ⟨f.all_tasks, f.priority, f.due_range, f.context_name, f.project_name,
           false, f.completed⟩ ∧
       (∃ d, t.due_date_time = some d ∧ d.data < now.data) ∧
       t.completed = false) := by
  unfold list_tasks
  rw [(List.perm_insertionSort taskLE _).mem_iff,
      (List.perm_insertionSort taskLE _).mem_iff,
      List.mem_filter, List.mem_filter]
  cases hdue : t.due_date_time with
  | none =>
    simp [rowMatches, hov, hdue]
  | some d =>
    simp [rowMatches, hov, hdue, and_assoc]

/-- The single overdue task used to instantiate the C7 theorem. -/
def lateTask : Task :=
  ⟨1, "file report", some "high", some "2024-01-01 00:00:00", none, none, "", false⟩

/-- A store holding only `lateTask`. -/
def lateStore : Store := ⟨[], [], [lateTask], 1, 1, 2⟩

/-- C7 witness: the overdue-filter equivalence at a concrete store, task
and query time. -/
theorem c7_overdue_filter_witness :
    lateTask ∈ list_tasks lateStore "2024-06-01 12:00:00"
        ⟨false, none, none, none, none, true, false⟩ ↔
      (lateTask ∈ list_tasks lateStore "2024-06-01 12:00:00"
          ⟨false, none, none, none, none, false, false⟩ ∧
       (∃ d, lateTask.due_date_time = some d ∧ d.data < "2024-06-01 12:00:00".data) ∧
       lateTask.completed = false) :=
  c7_overdue_filter lateStore "2024-06-01 12:00:00"
    ⟨false, none, none, none, none, true, false⟩ lateTask rfl

/-- C10: passing the empty string as `context_name` (or `project_name`) to
`add_task` is indistinguishable from omitting the argument — the Python
truthiness test skips the whole resolution — so no row is auto-created,
the context and project tables are untouched, and the inserted task's
association is NULL. -/
theorem c10_add_task_empty_names (s : Store) (d createdNow : String)
    (p du cn pn : Option String)
    (hfresh : ∀ t ∈ s.tasks, t.id ≠ s.nextTaskId) :
    add_task s d p du (some "") pn createdNow = add_task s d p du none pn createdNow ∧
    add_task s d p du cn (some "") createdNow = add_task s d p du cn none createdNow ∧
    (add_task s d p du (some "") (some "") createdNow).1.contexts = s.contexts ∧
    (add_task s d p du (some "") (some "") createdNow).1.projects = s.projects ∧
    (add_task s d p du (some "") (some "") createdNow).2 =
      Except.ok (some ⟨s.nextTaskId, d, p, du, none, none, createdNow, false⟩) := by
  have hfind : s.tasks.find? (fun t => decide (t.id = s.nextTaskId)) = none :=
    List.find?_eq_none.mpr (fun t ht => by simpa using hfresh t ht)
  refine ⟨rfl, rfl, rfl, rfl, ?_⟩
  show Except.ok (get_task ⟨s.contexts, s.projects,
      s.tasks ++ [⟨s.nextTaskId, d, p, du, none, none, createdNow, false⟩],
      s.nextContextId, s.nextProjectId, s.nextTaskId + 1⟩ s.nextTaskId) =
    Except.ok (some ⟨s.nextTaskId, d, p, du, none, none, createdNow, false⟩)
  unfold get_task
  rw [find?_append_of_none _ _ _ hfind (by simp)]

/-- C10 witness: adding a task with both names passed as the empty string
into a one-task store. -/
theorem c10_add_task_empty_names_witness :
    add_task doneStore "water plants" none none (some "") none "2024-05-01 08:00:00" =
        add_task doneStore "water plants" none none none none "2024-05-01 08:00:00" ∧
    add_task doneStore "water plants" none none none (some "") "2024-05-01 08:00:00" =
        add_task doneStore "water plants" none none none none "2024-05-01 08:00:00" ∧
    (add_task doneStore "water plants" none none (some "") (some "")
        "2024-05-01 08:00:00").1.contexts = doneStore.contexts ∧
    (add_task doneStore "water plants" none none (some "") (some "")
        "2024-05-01 08:00:00").1.projects = doneStore.projects ∧
    (add_task doneStore "water plants" none none (some "") (some "")
        "2024-05-01 08:00:00").2 =
      Except.ok (some ⟨doneStore.nextTaskId, "water plants", none, none, none, none,
                       "2024-05-01 08:00:00", false⟩) :=
  c10_add_task_empty_names doneStore "water plants" "2024-05-01 08:00:00"
    none none none (some "") (by decide)

/-- A concurrent writer that commits the context `nm` in its own
transaction (the race the specification's "best-effort" clause is about). -/
def contextRace (nm : String) : Store → Store := fun s => (add_context s nm).1

/-- A concurrent writer that commits the project `nm` in its own
transaction. -/
def projectRace (nm : String) : Store → Store := fun s => (add_project s nm).1

/-- C3 counterexample: starting from the empty store, a writer commits the
context "work" (respectively the project "alpha") between add_task's
lookup and its auto-creating insert, so the auto-creation fails with the
already-exists error — yet add_task reports success and stores the task
with the association NULL instead of surfacing the failure. -/
theorem c3_surface_counterexample :
    (add_context (contextRace "work" emptyStore) "work").2 =
      Except.error "Context 'work' already exists" ∧
    (add_task_raced emptyStore (contextRace "work") (fun st => st) "buy milk"
        none none (some "work") none "2024-01-01 09:00:00").2 =
      Except.ok (some ⟨1, "buy milk", none, none, none, none,
                       "2024-01-01 09:00:00", false⟩) ∧
    (add_project (projectRace "alpha" emptyStore) "alpha").2 =
      Except.error "Project 'alpha' already exists" ∧
    (add_task_raced emptyStore (fun st => st) (projectRace "alpha") "buy milk"
        none none none (some "alpha") "2024-01-01 09:00:00").2 =
      Except.ok (some ⟨1, "buy milk", none, none, none, none,
                       "2024-01-01 09:00:00", false⟩) := by
  decide

/-- Inserting a project row touches neither the task table nor the task
id counter. -/
theorem add_project_fst (s : Store) (nm : String) :
    (add_project s nm).1.tasks = s.tasks ∧
    (add_project s nm).1.nextTaskId = s.nextTaskId := by
  unfold add_project
  split <;> exact ⟨rfl, rfl⟩

/-- Resolving a project name changes neither the task table nor the task
id counter, whatever branch is taken. -/
theorem add_task_resolveProject_fst (sLook sIns : Store) (pn : Option String) :
    (add_task_resolveProject sLook sIns pn).1.tasks = sIns.tasks ∧
    (add_task_resolveProject sLook sIns pn).1.nextTaskId = sIns.nextTaskId := by
  unfold add_task_resolveProject
  split
  · dsimp only
    cases hg : get_project_by_name sLook (pn.getD "") with
    | some p => exact ⟨rfl, rfl⟩
    | none =>
      obtain ⟨h1, h2⟩ := add_project_fst sIns (pn.getD "")
      rcases ha : add_project sIns (pn.getD "") with ⟨s1, r⟩
      rw [ha] at h1 h2
      cases r
      · exact ⟨h1, h2⟩
      · exact ⟨h1, h2⟩
  · exact ⟨rfl, rfl⟩

/-- C3 (amended): when the auto-creation of the context, respectively the
project, fails — possible only when another writer commits the same name
between add_task's lookup for that name and its insert — add_task does
not surface the failure: it completes the task insert with the matching
association NULL and reports success (contrast `edit_task`, which returns
the failed creation). -/
theorem c3_surface_amended :
    (∀ (s : Store) (fC : Store → Store) (d createdNow : String)
        (p du pn : Option String) (nm : String),
      nm.data ≠ [] →
      get_context_by_name s nm = none →
      (∃ c ∈ (fC s).contexts, c.name = nm) →
      (∀ t ∈ (fC s).tasks, t.id ≠ (fC s).nextTaskId) →
      (add_context (fC s) nm).2 =
        Except.error ("Context '" ++ nm ++ "' already exists") ∧
      ∃ t, (add_task_raced s fC (fun st => st) d p du (some nm) pn createdNow).2 =
          Except.ok (some t) ∧ t.context_id = none ∧ t.description = d) ∧
    (∀ (s : Store) (fP : Store → Store) (d createdNow : String)
        (p du cn : Option String) (nm : String),
      nm.data ≠ [] →
      get_project_by_name (add_task_resolveContext s s cn).1 nm = none →
      (∃ c ∈ (fP (add_task_resolveContext s s cn).1).projects, c.name = nm) →
      (∀ t ∈ (fP (add_task_resolveContext s s cn).1).tasks,
          t.id ≠ (fP (add_task_resolveContext s s cn).1).nextTaskId) →
      (add_project (fP (add_task_resolveContext s s cn).1) nm).2 =
        Except.error ("Project '" ++ nm ++ "' already exists") ∧
      ∃ t, (add_task_raced s (fun st => st) fP d p du cn (some nm) createdNow).2 =
          Except.ok (some t) ∧ t.project_id = none ∧ t.description = d) := by
  constructor
  · intro s fC d createdNow p du pn nm h1 h2 h3 h4
    have htruthy : pyTruthy (some nm) = true := by
      simp [pyTruthy]
      exact h1
    have hany : (fC s).contexts.any (fun c => decide (c.name = nm)) = true := by
      rw [List.any_eq_true]
      obtain ⟨c, hcmem, hcname⟩ := h3
      exact ⟨c, hcmem, by simpa using hcname⟩
    have herr : add_context (fC s) nm =
        ((fC s), Except.error ("Context '" ++ nm ++ "' already exists")) := by
      unfold add_context
      rw [if_pos hany]
    have hres1 : add_task_resolveContext s (fC s) (some nm) = ((fC s), none) := by
      unfold add_task_resolveContext
      rw [if_pos htruthy]
      simp only [Option.getD_some]
      rw [h2, herr]
    refine ⟨by rw [herr], ?_⟩
    obtain ⟨hpt, hpn⟩ := add_task_resolveProject_fst (fC s) (fC s) pn
    have hfind : (add_task_resolveProject (fC s) (fC s) pn).1.tasks.find?
        (fun t => decide (t.id =
          (add_task_resolveProject (fC s) (fC s) pn).1.nextTaskId)) = none := by
      rw [hpt, hpn]
      exact List.find?_eq_none.mpr (fun t ht => by simpa using h4 t ht)
    refine ⟨⟨(add_task_resolveProject (fC s) (fC s) pn).1.nextTaskId,
             d, p, du, none,
             (add_task_resolveProject (fC s) (fC s) pn).2,
             createdNow, false⟩, ?_, rfl, rfl⟩
    unfold add_task_raced
    simp only [hres1]
    show Except.ok (get_task _ _) = _
    unfold get_task
    rw [find?_append_of_none _ _ _ hfind (by simp)]
  · intro s fP d createdNow p du cn nm h1 h2 h3 h4
    rcases hr1 : add_task_resolveContext s s cn with ⟨s1, cid⟩
    rw [hr1] at h2 h3 h4
    have htruthy : pyTruthy (some nm) = true := by
      simp [pyTruthy]
      exact h1
    have hany : (fP s1).projects.any (fun c => decide (c.name = nm)) = true := by
      rw [List.any_eq_true]
      obtain ⟨c, hcmem, hcname⟩ := h3
      exact ⟨c, hcmem, by simpa using hcname⟩
    have herr : add_project (fP s1) nm =
        ((fP s1), Except.error ("Project '" ++ nm ++ "' already exists")) := by
      unfold add_project
      rw [if_pos hany]
    have hres2 : add_task_resolveProject s1 (fP s1) (some nm) = ((fP s1), none) := by
      unfold add_task_resolveProject
      rw [if_pos htruthy]
      simp only [Option.getD_some]
      rw [h2, herr]
    refine ⟨by rw [herr], ?_⟩
    have hfind : (fP s1).tasks.find?
        (fun t => decide (t.id = (fP s1).nextTaskId)) = none :=
      List.find?_eq_none.mpr (fun t ht => by simpa using h4 t ht)
    refine ⟨⟨(fP s1).nextTaskId, d, p, du, cid, none, createdNow, false⟩,
            ?_, rfl, rfl⟩
    unfold add_task_raced
    simp only [hr1, hres2]
    show Except.ok (get_task _ _) = _
    unfold get_task
    rw [find?_append_of_none _ _ _ hfind (by simp)]

/-- C3 witness: the amended behaviour at concrete raced runs on the empty
store, once against the context step and once against the project step. -/
theorem c3_surface_amended_witness :
    ((add_context (contextRace "work" emptyStore) "work").2 =
      Except.error ("Context '" ++ "work" ++ "' already exists") ∧
     ∃ t, (add_task_raced emptyStore (contextRace "work") (fun st => st)
        "buy milk" none none (some "work") none "2024-01-01 09:00:00").2 =
        Except.ok (some t) ∧ t.context_id = none ∧ t.description = "buy milk") ∧
    ((add_project (projectRace "alpha"
        (add_task_resolveContext emptyStore emptyStore none).1) "alpha").2 =
      Except.error ("Project '" ++ "alpha" ++ "' already exists") ∧
     ∃ t, (add_task_raced emptyStore (fun st => st) (projectRace "alpha")
        "buy milk" none none none (some "alpha") "2024-01-01 09:00:00").2 =
        Except.ok (some t) ∧ t.project_id = none ∧ t.description = "buy milk") :=
  ⟨c3_surface_amended.1 emptyStore (contextRace "work") "buy milk"
     "2024-01-01 09:00:00" none none none "work"
     (by decide) (by decide) ⟨⟨1, "work"⟩, by decide, rfl⟩ (by decide),
   c3_surface_amended.2 emptyStore (projectRace "alpha") "buy milk"
     "2024-01-01 09:00:00" none none none "alpha"
     (by decide) (by decide) ⟨⟨1, "alpha"⟩, by decide, rfl⟩ (by decide)⟩

/-- C9: an edit that supplies only `context_name = ""`, or only
`project_name = ""` (and nothing else), is not rejected as "No updates
provided": the clearing counts as an update, the call succeeds, and the
task is stored unchanged except that the cleared association becomes
NULL. -/
theorem c9_edit_clear_only (s : Store) (task_id : Nat) (t0 : Task)
    (h0 : get_task s task_id = some t0) :
    ((edit_task s task_id ⟨none, none, none, some "", none⟩).2 ≠
        Except.error "No updates provided" ∧
     (edit_task s task_id ⟨none, none, none, some "", none⟩).2 =
      Except.ok (some ⟨t0.id, t0.description, t0.priority, t0.due_date_time,
                       none, t0.project_id, t0.created_at, t0.completed⟩)) ∧
    ((edit_task s task_id ⟨none, none, none, none, some ""⟩).2 ≠
        Except.error "No updates provided" ∧
     (edit_task s task_id ⟨none, none, none, none, some ""⟩).2 =
      Except.ok (some ⟨t0.id, t0.description, t0.priority, t0.due_date_time,
                       t0.context_id, none, t0.created_at, t0.completed⟩)) := by
  have h0' : s.tasks.find? (fun t => decide (t.id = task_id)) = some t0 := h0
  have hp0 := List.find?_some (p := fun t : Task => decide (t.id = task_id)) (a := t0) h0'
  have hid0 : t0.id = task_id := by simpa using hp0
  have hany : s.tasks.any (fun t => decide (t.id = task_id)) = true := by
    rw [List.any_eq_true]
    exact ⟨t0, List.mem_of_find?_eq_some h0', hp0⟩
  have hmainC : (edit_task s task_id ⟨none, none, none, some "", none⟩).2 =
      Except.ok (some ⟨t0.id, t0.description, t0.priority, t0.due_date_time,
                       none, t0.project_id, t0.created_at, t0.completed⟩) := by
    have hctx : edit_resolveContext s t0 (some "") = (s, Except.ok none) := rfl
    simp only [edit_task, h0, hctx, edit_resolveProject, Option.isNone_none,
      Option.isNone_some, Bool.and_false, Bool.false_and, Bool.and_true,
      Bool.true_and, Bool.false_eq_true, if_false, if_pos hany]
    unfold get_task
    dsimp only
    rw [find?_replace s.tasks task_id t0
      ⟨t0.id, t0.description, t0.priority, t0.due_date_time,
       none, t0.project_id, t0.created_at, t0.completed⟩ h0' hid0]
  have hmainP : (edit_task s task_id ⟨none, none, none, none, some ""⟩).2 =
      Except.ok (some ⟨t0.id, t0.description, t0.priority, t0.due_date_time,
                       t0.context_id, none, t0.created_at, t0.completed⟩) := by
    have hproj : edit_resolveProject s t0 (some "") = (s, Except.ok none) := rfl
    simp only [edit_task, h0, hproj, edit_resolveContext, Option.isNone_none,
      Option.isNone_some, Bool.and_false, Bool.false_and, Bool.and_true,
      Bool.true_and, Bool.false_eq_true, if_false, if_pos hany]
    unfold get_task
    dsimp only
    rw [find?_replace s.tasks task_id t0
      ⟨t0.id, t0.description, t0.priority, t0.due_date_time,
       t0.context_id, none, t0.created_at, t0.completed⟩ h0' hid0]
  exact ⟨⟨by rw [hmainC]; simp, hmainC⟩, ⟨by rw [hmainP]; simp, hmainP⟩⟩

/-- Inserting a context row never touches the task table. -/
theorem add_context_tasks (s : Store) (nm : String) :
    (add_context s nm).1.tasks = s.tasks := by
  unfold add_context
  split <;> rfl

/-- The context branch of `edit_task` never touches the task table. -/
theorem edit_resolveContext_tasks (s : Store) (cur : Task) (cn : Option String) :
    (edit_resolveContext s cur cn).1.tasks = s.tasks := by
  unfold edit_resolveContext
  cases cn with
  | none => rfl
  | some nm =>
    dsimp only
    split
    · cases hg : get_context_by_name s nm with
      | some c => rfl
      | none =>
        have h1 := add_context_tasks s nm
        rcases ha : add_context s nm with ⟨s1, r⟩
        rw [ha] at h1
        cases r <;> exact h1
    · rfl

/-- The project branch of `edit_task` never touches the task table. -/
theorem edit_resolveProject_tasks (s : Store) (cur : Task) (pn : Option String) :
    (edit_resolveProject s cur pn).1.tasks = s.tasks := by
  unfold edit_resolveProject
  cases pn with
  | none => rfl
  | some nm =>
    dsimp only
    split
    · cases hg : get_project_by_name s nm with
      | some p => rfl
      | none =>
        have h1 := (add_project_fst s nm).1
        rcases ha : add_project s nm with ⟨s1, r⟩
        rw [ha] at h1
        cases r <;> exact h1
    · rfl

/-- C4: whenever `edit_task` returns an updated row, every field the call
did not supply is unchanged, every supplied field holds the supplied
value, `context_name = ""` clears `context_id` to NULL while an absent
`context_name` leaves it untouched, and the same holds for the project
association. -/
theorem c4_edit_partial_update (s : Store) (task_id : Nat) (a : EditArgs)
    (t0 t' : Task) (s' : Store)
    (h0 : get_task s task_id = some t0)
    (h : edit_task s task_id a = (s', Except.ok (some t'))) :
    (a.context_name = some "" → t'.context_id = none) ∧
    (a.context_name = none → t'.context_id = t0.context_id) ∧
    (a.project_name = some "" → t'.project_id = none) ∧
    (a.project_name = none → t'.project_id = t0.project_id) ∧
    (a.description = none → t'.description = t0.description) ∧
    (∀ d, a.description = some d → t'.description = d) ∧
    (a.priority = none → t'.priority = t0.priority) ∧
    (∀ q, a.priority = some q → t'.priority = some q) ∧
    (a.due_date_time = none → t'.due_date_time = t0.due_date_time) ∧
    (∀ d, a.due_date_time = some d → t'.due_date_time = some d) ∧
    t'.id = t0.id ∧ t'.created_at = t0.created_at ∧ t'.completed = t0.completed := by
  have h0' : s.tasks.find? (fun t => decide (t.id = task_id)) = some t0 := h0
  have hp0 := List.find?_some (p := fun t : Task => decide (t.id = task_id)) (a := t0) h0'
  have hid0 : t0.id = task_id := by simpa using hp0
  simp only [edit_task, h0] at h
  rcases hc : edit_resolveContext s t0 a.context_name with ⟨s1, rc⟩
  rw [hc] at h
  cases rc with
  | error e => simp at h
  | ok cid =>
    dsimp only at h
    rcases hq : edit_resolveProject s1 t0 a.project_name with ⟨s2, rq⟩
    rw [hq] at h
    cases rq with
    | error e => simp at h
    | ok pid =>
      dsimp only at h
      by_cases hupd : (a.description.isNone && a.priority.isNone &&
          a.due_date_time.isNone && a.context_name.isNone && a.project_name.isNone) = true
      · rw [if_pos hupd] at h
        simp at h
      · rw [if_neg hupd] at h
        by_cases hany : (s2.tasks.any (fun t => decide (t.id = task_id))) = true
        · rw [if_pos hany] at h
          have hs1 : s1.tasks = s.tasks := by
            have hx := edit_resolveContext_tasks s t0 a.context_name
            rw [hc] at hx
            exact hx
          have hs2 : s2.tasks = s.tasks := by
            have hx := edit_resolveProject_tasks s1 t0 a.project_name
            rw [hq] at hx
            rw [hx, hs1]
          have hsnd := congrArg Prod.snd h
          dsimp only at hsnd
          have hget : get_task ⟨s2.contexts, s2.projects,
              s2.tasks.map (fun t => if t.id = task_id then
                (⟨t0.id,
                  (match a.description with | some d => d | none => t0.description),
                  (match a.priority with | some q => some q | none => t0.priority),
                  (match a.due_date_time with | some d => some d | none => t0.due_date_time),
                  cid, pid, t0.created_at, t0.completed⟩ : Task) else t),
              s2.nextContextId, s2.nextProjectId, s2.nextTaskId⟩ task_id =
              some ⟨t0.id,
                (match a.description with | some d => d | none => t0.description),
                (match a.priority with | some q => some q | none => t0.priority),
                (match a.due_date_time with | some d => some d | none => t0.due_date_time),
                cid, pid, t0.created_at, t0.completed⟩ := by
            unfold get_task
            dsimp only
            rw [hs2]
            exact find?_replace s.tasks task_id t0 _ h0' hid0
          rw [hget] at hsnd
          have ht' : t' = ⟨t0.id,
              (match a.description with | some d => d | none => t0.description),
              (match a.priority with | some q => some q | none => t0.priority),
              (match a.due_date_time with | some d => some d | none => t0.due_date_time),
              cid, pid, t0.created_at, t0.completed⟩ := by
            simpa using hsnd.symm
          subst ht'
          refine ⟨?_, ?_, ?_, ?_, ?_, ?_, ?_, ?_, ?_, ?_, rfl, rfl, rfl⟩
          · intro hcn
            rw [hcn] at hc
            have hx : edit_resolveContext s t0 (some "") = (s, Except.ok none) := rfl
            rw [hx] at hc
            have := congrArg Prod.snd hc
            simpa using this.symm
          · intro hcn
            rw [hcn] at hc
            have hx : edit_resolveContext s t0 none = (s, Except.ok t0.context_id) := rfl
            rw [hx] at hc
            have := congrArg Prod.snd hc
            simpa using this.symm
          · intro hpn
            rw [hpn] at hq
            have hx : edit_resolveProject s1 t0 (some "") = (s1, Except.ok none) := rfl
            rw [hx] at hq
            have := congrArg Prod.snd hq
            simpa using this.symm
          · intro hpn
            rw [hpn] at hq
            have hx : edit_resolveProject s1 t0 none = (s1, Except.ok t0.project_id) := rfl
            rw [hx] at hq
            have := congrArg Prod.snd hq
            simpa using this.symm
          · intro hd
            simp [hd]
          · intro d hd
            simp [hd]
          · intro hq2
            simp [hq2]
          · intro q hq2
            simp [hq2]
          · intro hd
            simp [hd]
          · intro d hd
            simp [hd]
        · rw [if_neg hany] at h
          simp at h

/-- C4 witness: editing the concrete task 1 with a new description and a
cleared context updates exactly those two fields. -/
theorem c4_edit_partial_update_witness :
    (edit_task ⟨[⟨4, "office"⟩], [⟨2, "launch"⟩],
        [⟨1, "draft memo", some "low", some "2024-04-01 10:00:00", some 4, some 2,
          "2024-03-01 00:00:00", false⟩], 5, 3, 2⟩ 1
        ⟨some "draft memo v2", none, none, some "", none⟩).2 =
      Except.ok (some ⟨1, "draft memo v2", some "low", some "2024-04-01 10:00:00",
                       none, some 2, "2024-03-01 00:00:00", false⟩) ∧
    ((⟨some "draft memo v2", none, none, some "", none⟩ : EditArgs).context_name =
        some "" →
      (⟨1, "draft memo v2", some "low", some "2024-04-01 10:00:00",
        none, some 2, "2024-03-01 00:00:00", false⟩ : Task).context_id = none) ∧
    ((⟨some "draft memo v2", none, none, some "", none⟩ : EditArgs).project_name =
        none →
      (⟨1, "draft memo v2", some "low", some "2024-04-01 10:00:00",
        none, some 2, "2024-03-01 00:00:00", false⟩ : Task).project_id =
        (⟨1, "draft memo", some "low", some "2024-04-01 10:00:00", some 4, some 2,
          "2024-03-01 00:00:00", false⟩ : Task).project_id) :=
  ⟨by decide,
   ((c4_edit_partial_update
      ⟨[⟨4, "office"⟩], [⟨2, "launch"⟩],
       [⟨1, "draft memo", some "low", some "2024-04-01 10:00:00", some 4, some 2,
         "2024-03-01 00:00:00", false⟩], 5, 3, 2⟩ 1
      ⟨some "draft memo v2", none, none, some "", none⟩
      ⟨1, "draft memo", some "low", some "2024-04-01 10:00:00", some 4, some 2,
        "2024-03-01 00:00:00", false⟩
      ⟨1, "draft memo v2", some "low", some "2024-04-01 10:00:00",
        none, some 2, "2024-03-01 00:00:00", false⟩
      ⟨[⟨4, "office"⟩], [⟨2, "launch"⟩],
       [⟨1, "draft memo v2", some "low", some "2024-04-01 10:00:00", none, some 2,
         "2024-03-01 00:00:00", false⟩], 5, 3, 2⟩
      (by decide) (by decide)).1),
   ((c4_edit_partial_update
      ⟨[⟨4, "office"⟩], [⟨2, "launch"⟩],
       [⟨1, "draft memo", some "low", some "2024-04-01 10:00:00", some 4, some 2,
         "2024-03-01 00:00:00", false⟩], 5, 3, 2⟩ 1
      ⟨some "draft memo v2", none, none, some "", none⟩
      ⟨1, "draft memo", some "low", some "2024-04-01 10:00:00", some 4, some 2,
        "2024-03-01 00:00:00", false⟩
      ⟨1, "draft memo v2", some "low", some "2024-04-01 10:00:00",
        none, some 2, "2024-03-01 00:00:00", false⟩
      ⟨[⟨4, "office"⟩], [⟨2, "launch"⟩],
       [⟨1, "draft memo v2", some "low", some "2024-04-01 10:00:00", none, some 2,
         "2024-03-01 00:00:00", false⟩], 5, 3, 2⟩
      (by decide) (by decide)).2.2.2.1)⟩

/-- C8 counterexample: a stored timestamp exactly seven whole days before
the current calendar date parses fine and has day difference -7, yet
`format_relative_date` renders the absolute format, not "7 days ago" —
the code's past-relative window is `-7 < days_diff < 0` with -1 taken
earlier, i.e. 2 to 6 days ago only. -/
theorem c8_relative_counterexample :
    strptimeYmdHms "2024-03-08 10:00:00" = some ⟨2024, 3, 8, 10, 0, 0⟩ ∧
    (civilDays ⟨2024, 3, 8, 10, 0, 0⟩ : Int) -
        (civilDays ⟨2024, 3, 15, 12, 0, 0⟩ : Int) = -7 ∧
    format_relative_date ⟨2024, 3, 15, 12, 0, 0⟩ (some "2024-03-08 10:00:00") ≠
        "7 days ago" ∧
    format_relative_date ⟨2024, 3, 15, 12, 0, 0⟩ (some "2024-03-08 10:00:00") =
      "Mar 8, 2024 at 10:00 AM" := by
  decide

/-- C8 (amended): for a parseable stored timestamp, a calendar-date
difference of 2 to 6 whole days into the past renders "N days ago", while
exactly 7 days past falls through to the absolute format; 2 to 6 whole
days ahead renders the weekday name with the time; an absent value
renders "No due date" and an unparseable one (here February 30th) renders
"Invalid date". -/
theorem c8_relative_amended (s : String) (dt now : DateTime)
    (hp : strptimeYmdHms s = some dt) :
    (∀ n : Nat, 2 ≤ n → n ≤ 6 →
        (civilDays dt : Int) - (civilDays now : Int) = -(n : Int) →
        format_relative_date now (some s) = toString n ++ " days ago") ∧
    ((civilDays dt : Int) - (civilDays now : Int) = -7 →
        format_relative_date now (some s) = absoluteFormat dt) ∧
    (∀ k : Int, 2 ≤ k → k ≤ 6 →
        (civilDays dt : Int) - (civilDays now : Int) = k →
        format_relative_date now (some s) =
          weekdayName dt ++ " at " ++ hour12Str dt) ∧
    format_relative_date now none = "No due date" ∧
    format_relative_date now (some "2024-02-30 10:00:00") = "Invalid date" := by
  have hne : s.data.isEmpty = false := by
    cases hd : s.data.isEmpty
    · rfl
    · exfalso
      have hnil : s.data = [] := by simpa using hd
      unfold strptimeYmdHms at hp
      rw [hnil] at hp
      simp [splitOnChar] at hp
  have hfmt : format_relative_date now (some s) =
      (if (civilDays dt : Int) - (civilDays now : Int) = 0 then
         "Today at " ++ hour12Str dt
       else if (civilDays dt : Int) - (civilDays now : Int) = 1 then
         "Tomorrow at " ++ hour12Str dt
       else if (civilDays dt : Int) - (civilDays now : Int) = -1 then
         "Yesterday at " ++ hour12Str dt
       else if 1 < (civilDays dt : Int) - (civilDays now : Int) ∧
           (civilDays dt : Int) - (civilDays now : Int) < 7 then
         weekdayName dt ++ " at " ++ hour12Str dt
       else if -7 < (civilDays dt : Int) - (civilDays now : Int) ∧
           (civilDays dt : Int) - (civilDays now : Int) < 0 then
         toString ((civilDays dt : Int) - (civilDays now : Int)).natAbs ++ " days ago"
       else absoluteFormat dt) := by
    simp only [format_relative_date, hne, Bool.false_eq_true, if_false, hp]
  have hinv : format_relative_date now (some "2024-02-30 10:00:00") = "Invalid date" := by
    have hsn : strptimeYmdHms "2024-02-30 10:00:00" = none := by decide
    have hen : ("2024-02-30 10:00:00" : String).data.isEmpty = false := by decide
    simp only [format_relative_date, hen, Bool.false_eq_true, if_false, hsn]
  refine ⟨?_, ?_, ?_, rfl, hinv⟩
  · intro n h2 h6 hdiff
    rw [hfmt, hdiff]
    rw [if_neg (by omega), if_neg (by omega), if_neg (by omega),
        if_neg (by omega), if_pos (by omega)]
    have habs : ((-(n : Int)).natAbs) = n := by simp
    rw [habs]
  · intro hdiff
    rw [hfmt, hdiff]
    rw [if_neg (by omega), if_neg (by omega), if_neg (by omega),
        if_neg (by omega), if_neg (by omega)]
  · intro k h2 h6 hdiff
    rw [hfmt, hdiff]
    rw [if_neg (by omega), if_neg (by omega), if_neg (by omega),
        if_pos (by omega)]

/-- C8 witness: a timestamp three calendar days in the past renders
"3 days ago", and an absent due date renders "No due date". -/
theorem c8_relative_amended_witness :
    format_relative_date ⟨2024, 3, 15, 23, 0, 0⟩ (some "2024-03-12 09:05:00") =
        toString 3 ++ " days ago" ∧
    format_relative_date ⟨2024, 3, 15, 23, 0, 0⟩ none = "No due date" :=
  ⟨(c8_relative_amended "2024-03-12 09:05:00" ⟨2024, 3, 12, 9, 5, 0⟩
      ⟨2024, 3, 15, 23, 0, 0⟩ (by decide)).1 3 (by decide) (by decide) (by decide),
   (c8_relative_amended "2024-03-12 09:05:00" ⟨2024, 3, 12, 9, 5, 0⟩
      ⟨2024, 3, 15, 23, 0, 0⟩ (by decide)).2.2.2.1⟩

/-- C9 witness: clearing only the context, and clearing only the project,
of a concrete task that has both. -/
theorem c9_edit_clear_only_witness :
    ((edit_task ⟨[⟨7, "home"⟩], [⟨9, "reno"⟩],
        [⟨1, "call mom", none, none, some 7, some 9, "", false⟩],
        8, 10, 2⟩ 1 ⟨none, none, none, some "", none⟩).2 ≠
        Except.error "No updates provided" ∧
     (edit_task ⟨[⟨7, "home"⟩], [⟨9, "reno"⟩],
        [⟨1, "call mom", none, none, some 7, some 9, "", false⟩],
        8, 10, 2⟩ 1 ⟨none, none, none, some "", none⟩).2 =
      Except.ok (some ⟨1, "call mom", none, none, none, some 9, "", false⟩)) ∧
    ((edit_task ⟨[⟨7, "home"⟩], [⟨9, "reno"⟩],
        [⟨1, "call mom", none, none, some 7, some 9, "", false⟩],
        8, 10, 2⟩ 1 ⟨none, none, none, none, some ""⟩).2 ≠
        Except.error "No updates provided" ∧
     (edit_task ⟨[⟨7, "home"⟩], [⟨9, "reno"⟩],
        [⟨1, "call mom", none, none, some 7, some 9, "", false⟩],
        8, 10, 2⟩ 1 ⟨none, none, none, none, some ""⟩).2 =
      Except.ok (some ⟨1, "call mom", none, none, some 7, none, "", false⟩)) :=
  c9_edit_clear_only
    ⟨[⟨7, "home"⟩], [⟨9, "reno"⟩],
     [⟨1, "call mom", none, none, some 7, some 9, "", false⟩], 8, 10, 2⟩
    1 ⟨1, "call mom", none, none, some 7, some 9, "", false⟩ (by decide)

end GeminiTask
